import Mathlib

/-!
Verification of the client-side logic of the two notebooks in this repository:
the inference-recommender job submission / polling / result-aggregation pipeline
and the scikit-learn training notebook.  Python dictionaries are embedded as
association lists with Python's insertion-order / right-biased-update semantics,
the pandas calls used by the notebooks (`pd.DataFrame` on a list of dicts,
`DataFrame.drop(column, axis=1)`) are embedded with their documented semantics,
and the blocking poll loops are embedded as fuel-indexed recursions over an
oracle giving the remote job description returned by each successive
`describe_inference_recommendations_job` call.
-/

/-- A Python `dict` with `String` keys, embedded as an association list in
insertion order.  Python guarantees the keys are pairwise distinct; lemmas that
need that fact take it as an explicit `Nodup` hypothesis. -/
abbrev Dict (α : Type) : Type := List (String × α)

/-- Python `d[k]` as a total function: the value at the first occurrence of
key `k`, or `none` when `k` is absent. -/
def dlookup {α : Type} : Dict α → String → Option α
  | [], _ => none
  | (k0, v0) :: rest, k => if k0 = k then some v0 else dlookup rest k

/-- Python `d[k] = v`: replace the value at an existing key in place, keeping
its position, or append a fresh key at the end.  This is the elementary step
of a `dict` display such as `{**a, **b}`. -/
def dinsert {α : Type} : Dict α → String → α → Dict α
  | [], k, v => [(k, v)]
  | (k0, v0) :: rest, k, v =>
    if k0 = k then (k, v) :: rest else (k0, v0) :: dinsert rest k v

/-- Insert every pair of `l` into `d` in order; later pairs override earlier
ones.  `{**a, **b, **c}` is `dinsertAll (dinsertAll (dinsertAll [] a) b) c`. -/
def dinsertAll {α : Type} (d : Dict α) (l : List (String × α)) : Dict α :=
  l.foldl (fun acc kv => dinsert acc kv.1 kv.2) d

/-- The key list of a dict, in order. -/
def dkeys {α : Type} (d : Dict α) : List String :=
  d.map Prod.fst

/-- One record of the `InferenceRecommendations` list returned by
`describe_inference_recommendations_job`: three dict-valued sub-records. -/
structure Recommendation (α : Type) where
  EndpointConfiguration : Dict α
  ModelConfiguration : Dict α
  Metrics : Dict α
deriving DecidableEq

/-- The dict comprehension body
`{**x["EndpointConfiguration"], **x["ModelConfiguration"], **x["Metrics"]}`
from the result-aggregation cells of the recommender notebook: a fresh dict
receiving the endpoint-configuration pairs, then the model-configuration
pairs, then the metrics pairs, later inserts overriding earlier ones. -/
def flattenRec {α : Type} (x : Recommendation α) : Dict α :=
  dinsertAll (dinsertAll (dinsertAll [] x.EndpointConfiguration) x.ModelConfiguration) x.Metrics

/-- All keys appearing in the three sub-records of one recommendation. -/
def recKeys {α : Type} (x : Recommendation α) : List String :=
  dkeys x.EndpointConfiguration ++ dkeys x.ModelConfiguration ++ dkeys x.Metrics

/-- The three sub-records of a recommendation have pairwise disjoint key sets. -/
def pairwiseDisjointSubrecords {α : Type} (x : Recommendation α) : Prop :=
  (∀ k ∈ dkeys x.EndpointConfiguration, k ∉ dkeys x.ModelConfiguration) ∧
  (∀ k ∈ dkeys x.EndpointConfiguration, k ∉ dkeys x.Metrics) ∧
  (∀ k ∈ dkeys x.ModelConfiguration, k ∉ dkeys x.Metrics)

instance {α : Type} (x : Recommendation α) : Decidable (pairwiseDisjointSubrecords x) := by
  unfold pairwiseDisjointSubrecords
  infer_instance

/-- A pandas `DataFrame` as the notebooks use it: a column index plus one
dict-shaped row per input record (a missing key in a row is a `NaN` cell,
i.e. `dlookup row c = none`). -/
structure DataFrame (α : Type) where
  columns : List String
  rows : List (Dict α)
deriving DecidableEq

/-- Fold one row of `pd.DataFrame(data)` into the accumulated column index:
keys not seen before are appended in first-appearance order. -/
def addRowKeys {α : Type} (cols : List String) (row : Dict α) : List String :=
  row.foldl (fun acc kv => if kv.1 ∈ acc then acc else acc ++ [kv.1]) cols

/-- The column index of `pd.DataFrame(data)` for a list of dicts `data`:
the union of all row keys in first-appearance order. -/
def dfColumns {α : Type} (data : List (Dict α)) : List String :=
  data.foldl addRowKeys []

/-- `pd.DataFrame(data)` for a list of dicts: one row per dict, columns the
union of their keys.  `pd.DataFrame([])` is the empty frame with no columns. -/
def buildDataFrame {α : Type} (data : List (Dict α)) : DataFrame α :=
  ⟨dfColumns data, data⟩

/-- `df.drop(col, inplace=True, axis=1)` with pandas' default `errors="raise"`:
remove the column when it exists, raise a `KeyError` when it does not. -/
def dropColumn {α : Type} (df : DataFrame α) (col : String) : Except String (DataFrame α) :=
  if col ∈ df.columns then
    Except.ok ⟨df.columns.filter (fun c => c != col),
               df.rows.map (fun row => row.filter (fun kv => kv.1 != col))⟩
  else
    Except.error ("KeyError: " ++ col)

/-- The result-aggregation cell of the recommender notebook (identical in the
default-job and advanced-job sections): flatten each recommendation record by
the right-biased dict merge, build a `DataFrame` from the flattened rows, and
drop the redundant `VariantName` column. -/
def aggregateResults {α : Type} (recs : List (Recommendation α)) : Except String (DataFrame α) :=
  dropColumn (buildDataFrame (recs.map flattenRec)) "VariantName"

/-- A `describe_inference_recommendations_job` response: the `Status` field,
the optional `FailureReason` field, and the recommendation list. -/
structure JobDescription where
  Status : String
  FailureReason : Option String
  InferenceRecommendations : List (Recommendation String)
deriving DecidableEq

/-- The terminal statuses tested by the notebook's poll loops:
`["COMPLETED", "STOPPED", "FAILED"]`. -/
def terminalStatuses : List String :=
  ["COMPLETED", "STOPPED", "FAILED"]

/-- The loop condition `job["Status"] in ["COMPLETED", "STOPPED", "FAILED"]`. -/
def isTerminalStatus (s : String) : Bool :=
  terminalStatuses.contains s

/-- What a finished poll loop did: the index of the describe call whose fresh
status was terminal, that freshly returned description, and the list of
`time.sleep` durations performed (one per non-terminal observation). -/
structure PollResult where
  finalIndex : Nat
  finalJob : JobDescription
  sleeps : List Nat
deriving DecidableEq

/-- The poll loop `while not finished: job = describe(...); if terminal:
finished = True else: sleep(300)`, embedded as a fuel-indexed recursion.
`describe i` is the job description returned by the `(i+1)`-st describe call;
each iteration re-queries at a fresh index, so nothing is cached.  `none`
means the fuel ran out before a terminal status was observed: a loop that is
`none` for every fuel never terminates. -/
def pollLoopAux (describe : Nat → JobDescription) : Nat → Nat → Option PollResult
  | 0, _ => none
  | fuel + 1, i =>
    if isTerminalStatus (describe i).Status then
      some ⟨i, describe i, []⟩
    else
      match pollLoopAux describe fuel (i + 1) with
      | some r => some ⟨r.finalIndex, r.finalJob, 300 :: r.sleeps⟩
      | none => none

/-- The poll loop started at the first describe call. -/
def pollLoop (describe : Nat → JobDescription) (fuel : Nat) : Option PollResult :=
  pollLoopAux describe fuel 0

/-- Modelled from the spec: the remote recommender service (which is not part
of this repository) gives a failed job a human-readable, hence non-empty,
`FailureReason` string in its describe response. -/
def FailedJobHasReason (job : JobDescription) : Prop :=
  job.Status = "FAILED" → ∃ r, job.FailureReason = some r ∧ r ≠ ""

/-- One observable event of running the notebook cells after the poll loop. -/
inductive CellEvent where
  | printed (line : String)
  | aggregated (result : Except String (DataFrame String))
  | errored (msg : String)

/-- The status-check cell of the default-job section: print the failure
reason when the status is `FAILED` (a missing `FailureReason` field would
raise a `KeyError`), otherwise print the completion message. -/
def statusCheckCell (job : JobDescription) : Except String (List String) :=
  if job.Status = "FAILED" then
    match job.FailureReason with
    | some r => Except.ok ["Inference recommender job failed ", "Failed Reason: " ++ r]
    | none => Except.error "KeyError: FailureReason"
  else
    Except.ok ["Inference recommender job completed"]

/-- The notebook cells that follow the poll loop, executed in order: the
status-check cell, then — unconditionally, since nothing in the notebook
stops a run after a failed status — the result-aggregation cell.  A raised
exception in a cell halts the run before later cells. -/
def notebookTail (job : JobDescription) : List CellEvent :=
  match statusCheckCell job with
  | Except.error e => [CellEvent.errored e]
  | Except.ok lines =>
    lines.map CellEvent.printed ++
      [CellEvent.aggregated (aggregateResults job.InferenceRecommendations)]

/-- Whether the result-aggregation cell was executed. -/
def hasAggregationStep (events : List CellEvent) : Bool :=
  events.any fun e =>
    match e with
    | CellEvent.aggregated _ => true
    | _ => false

/-- The decimal digit character of `d`, for `d < 10`. -/
def decDigitChar (d : Nat) : Char :=
  Char.ofNat (48 + d)

/-- Emit the decimal digits of `n` in front of `acc`; the fuel argument
(strictly greater than `n`) only makes the recursion structural. -/
def pyNatStrGo : Nat → Nat → List Char → List Char
  | 0, _, acc => acc
  | fuel + 1, n, acc =>
    if n < 10 then decDigitChar n :: acc
    else pyNatStrGo fuel (n / 10) (decDigitChar (n % 10) :: acc)

/-- Python's `str` on a non-negative integer: its decimal digit string. -/
def pyNatStr (n : Nat) : List Char :=
  pyNatStrGo (n + 1) n []

/-- Python's `str(round(time.time()))` as a `String`, with the rounded
timestamp taken as a natural number. -/
def pyNatString (n : Nat) : String :=
  ⟨pyNatStr n⟩

/-- The numeric value of a decimal digit character. -/
def decValChar (c : Char) : Nat :=
  c.toNat - 48

/-- Parse a decimal digit string back to its value (inverse of `pyNatStr`). -/
def decVal (l : List Char) : Nat :=
  l.foldl (fun acc c => 10 * acc + decValChar c) 0

/-- The `model_name` variable of the recommender notebook. -/
def model_name : String :=
  "resnet50"

/-- The `instance_type` variable of the recommender notebook. -/
def instance_type : String :=
  "ml.c5.xlarge"

/-- Python's `s.replace(".", "-")`: both arguments are single characters, so
the replacement is a character-wise map. -/
def replaceDotWithDash (s : String) : String :=
  ⟨s.data.map fun c => if c = '.' then '-' else c⟩

/-- `default_job_name = model_name + "-instance-" + str(round(time.time()))`. -/
def default_job_name (ts : Nat) : String :=
  model_name ++ "-instance-" ++ pyNatString ts

/-- `advanced_job_name = model_name + "-" + instance_type.replace(".", "-")
+ "-load-test-" + str(round(time.time()))`. -/
def advanced_job_name (ts : Nat) : String :=
  model_name ++ "-" ++ replaceDotWithDash instance_type ++ "-load-test-" ++ pyNatString ts

/-- `TrainingJobName="sklearn-boto3-" + datetime.datetime.now().strftime(...)`
from the scikit-learn notebook, as a function of the formatted timestamp. -/
def training_job_name (timestamp : String) : String :=
  "sklearn-boto3-" ++ timestamp

/-- A character of the regex class `[0-9.]`. -/
def isNumChar (c : Char) : Bool :=
  c.isDigit || c == '.'

/-- Match a literal pattern at the head of the input, returning the remaining
input on success. -/
def matchHere : List Char → List Char → Option (List Char)
  | [], s => some s
  | _ :: _, [] => none
  | p :: ps, c :: cs => if p = c then matchHere ps cs else none

/-- Unanchored search for `pat` followed by at least one `[0-9.]` character;
the trailing `.*$` of the metric regex matches any remainder of the line, so
this decides whether the regex `pat([0-9.]+).*$` matches the line. -/
def searchPat (pat : List Char) : List Char → Bool
  | [] => false
  | c :: cs =>
    (match matchHere pat (c :: cs) with
     | some (t :: _) => isNumChar t
     | _ => false) ||
    searchPat pat cs

/-- The capture of the first match of `pat([0-9.]+).*$`: the maximal `[0-9.]`
run right after the first occurrence of `pat` that is followed by at least
one `[0-9.]` character. -/
def capturePat (pat : List Char) : List Char → Option (List Char)
  | [] => none
  | c :: cs =>
    match matchHere pat (c :: cs) with
    | some (t :: ts) =>
      if isNumChar t then some (List.takeWhile isNumChar (t :: ts))
      else capturePat pat cs
    | _ => capturePat pat cs

/-- The literal part of the objective-metric regex
`AE-at-50th-percentile: ([0-9.]+).*$`. -/
def medianAELit : List Char :=
  "AE-at-50th-percentile: ".data

/-- Whether the declared objective-metric regex matches a log line. -/
def medianAERegexAccepts (line : String) : Bool :=
  searchPat medianAELit line.data

/-- The metric value the declared regex extracts from a log line. -/
def medianAEExtract (line : String) : Option (List Char) :=
  capturePat medianAELit line.data

/-- One entry of the `metric_definitions` list passed to the estimator and
the tuner in the scikit-learn notebook. -/
structure MetricDefinition where
  Name : String
  Regex : String
deriving DecidableEq

/-- The declared objective metric of the training and tuning jobs. -/
def medianAEMetricDef : MetricDefinition :=
  ⟨"median-AE", "AE-at-50th-percentile: ([0-9.]+).*$"⟩

/-- The log line printed by `script.py` for percentile `q`:
`print("AE-at-" + str(q) + "th-percentile: " + str(np.percentile(...)))`,
as a function of the rendered percentile value `v`. -/
def percentileLogLine (q : Nat) (v : String) : String :=
  "AE-at-" ++ pyNatString q ++ "th-percentile: " ++ v

/-- `os.path.join(dir, file)` for the non-absolute file names used by the
scikit-learn notebook's script. -/
def ospath_join (dir file : String) : String :=
  if dir = "" then file
  else if dir.endsWith "/" then dir ++ file
  else dir ++ "/" ++ file

/-- Modelled from the spec: `joblib.dump(value, path)` of the external joblib
library, embedded as a write into a path-indexed store. -/
def joblib_dump {α : Type} (store : Dict α) (value : α) (path : String) : Dict α :=
  dinsert store path value

/-- Modelled from the spec: `joblib.load(path)` of the external joblib
library, embedded as a read from the path-indexed store. -/
def joblib_load {α : Type} (store : Dict α) (path : String) : Option α :=
  dlookup store path

/-- `model_fn(model_dir)` from `script.py`:
`joblib.load(os.path.join(model_dir, "model.joblib"))`. -/
def model_fn {α : Type} (store : Dict α) (model_dir : String) : Option α :=
  joblib_load store (ospath_join model_dir "model.joblib")

/-- The persistence step at the end of `script.py`'s training run:
`path = os.path.join(args.model_dir, "model.joblib"); joblib.dump(model, path)`. -/
def script_persist_model {α : Type} (store : Dict α) (model_dir : String) (model : α) : Dict α :=
  joblib_dump store model (ospath_join model_dir "model.joblib")

/-- A sample endpoint-configuration sub-record (shape of the service's
`EndpointConfiguration`, which always carries `VariantName`). -/
def sampleEndpointConfig : Dict String :=
  [("EndpointName", "sm-epc-1"), ("VariantName", "variant-1"),
   ("InstanceType", "ml.c5.xlarge"), ("InitialInstanceCount", "1")]

/-- A sample model-configuration sub-record. -/
def sampleModelConfig : Dict String :=
  [("EnvironmentParameters", "OMP_NUM_THREADS=2")]

/-- A sample metrics sub-record. -/
def sampleMetrics : Dict String :=
  [("CostPerHour", "0.204"), ("CostPerInference", "0.0000052"),
   ("MaxInvocations", "300"), ("ModelLatency", "178")]

/-- A sample recommendation record with pairwise disjoint sub-record keys. -/
def sampleRec : Recommendation String :=
  ⟨sampleEndpointConfig, sampleModelConfig, sampleMetrics⟩

/-- A one-record recommendation list. -/
def sampleRecs : List (Recommendation String) :=
  [sampleRec]

/-- A recommendation record whose sub-records share the key `SharedKey`. -/
def overlapRec : Recommendation String :=
  ⟨[("VariantName", "variant-1"), ("SharedKey", "from-endpoint-config")],
   [("SharedKey", "from-model-config")],
   [("MaxInvocations", "300")]⟩

/-- A non-terminal job description. -/
def inProgressJob : JobDescription :=
  ⟨"IN_PROGRESS", none, []⟩

/-- A completed job description. -/
def completedJob : JobDescription :=
  ⟨"COMPLETED", none, [sampleRec]⟩

/-- A failed job description carrying a non-empty failure reason. -/
def failedJob : JobDescription :=
  ⟨"FAILED", some "ClientError: unable to provision the requested instance type", []⟩

/-- A describe oracle whose job never leaves the in-progress state. -/
def constInProgress : Nat → JobDescription :=
  fun _ => inProgressJob

/-- A describe oracle: in progress for the first two queries, then completed. -/
def sampleDescribe : Nat → JobDescription :=
  fun i => if i < 2 then inProgressJob else completedJob
theorem dlookup_dinsert {α : Type} (d : Dict α) (k : String) (v : α) (k' : String) :
    dlookup (dinsert d k v) k' = if k = k' then some v else dlookup d k' := by
  induction d with
  | nil => simp [dinsert, dlookup]
  | cons kv rest ih =>
    obtain ⟨k0, v0⟩ := kv
    by_cases h0 : k0 = k
    · subst h0
      simp only [dinsert, if_pos rfl, dlookup]
      by_cases h1 : k0 = k' <;> simp [h1]
    · simp only [dinsert, if_neg h0, dlookup, ih]
      by_cases h1 : k0 = k'
      · subst h1
        simp [if_neg (Ne.symm h0)]
      · simp [h1]

theorem mem_dkeys_dinsert {α : Type} (d : Dict α) (k : String) (v : α) (c : String) :
    c ∈ dkeys (dinsert d k v) ↔ c ∈ dkeys d ∨ c = k := by
  induction d with
  | nil => simp [dinsert, dkeys]
  | cons kv rest ih =>
    obtain ⟨k0, v0⟩ := kv
    by_cases h0 : k0 = k
    · subst h0
      have hd : dinsert ((k0, v0) :: rest) k0 v = (k0, v) :: rest := by
        simp [dinsert]
      rw [hd]
      simp only [dkeys, List.map_cons, List.mem_cons]
      tauto
    · simp only [dinsert, if_neg h0, dkeys, List.map_cons, List.mem_cons] at ih ⊢
      rw [ih]
      tauto

theorem mem_dkeys_dinsertAll {α : Type} (l : List (String × α)) (d : Dict α) (c : String) :
    c ∈ dkeys (dinsertAll d l) ↔ c ∈ dkeys d ∨ c ∈ dkeys l := by
  induction l generalizing d with
  | nil => simp [dinsertAll, dkeys]
  | cons kv rest ih =>
    simp only [dinsertAll, List.foldl_cons] at ih ⊢
    rw [ih, mem_dkeys_dinsert]
    simp only [dkeys, List.map_cons, List.mem_cons]
    tauto

theorem dlookup_eq_none_iff {α : Type} (d : Dict α) (k : String) :
    dlookup d k = none ↔ k ∉ dkeys d := by
  induction d with
  | nil => simp [dlookup, dkeys]
  | cons kv rest ih =>
    obtain ⟨k0, v0⟩ := kv
    simp only [dlookup, dkeys, List.map_cons, List.mem_cons]
    by_cases h0 : k0 = k
    · subst h0
      simp
    · rw [if_neg h0, ih]
      simp only [dkeys]
      constructor
      · intro h hmem
        rcases hmem with h1 | h1
        · exact h0 h1.symm
        · exact h h1
      · intro h hmem
        exact h (Or.inr hmem)

theorem dlookup_dinsertAll {α : Type} (l : List (String × α)) (d : Dict α) (k : String)
    (hl : (dkeys l).Nodup) :
    dlookup (dinsertAll d l) k = if k ∈ dkeys l then dlookup l k else dlookup d k := by
  induction l generalizing d with
  | nil => simp [dinsertAll, dkeys, dlookup]
  | cons kv rest ih =>
    obtain ⟨k0, v0⟩ := kv
    simp only [dkeys, List.map_cons, List.nodup_cons] at hl
    obtain ⟨hk0, hrest⟩ := hl
    simp only [dinsertAll, List.foldl_cons] at ih ⊢
    rw [ih _ hrest]
    by_cases hmem : k ∈ dkeys rest
    · have hne : k0 ≠ k := by
        intro h
        subst h
        exact hk0 hmem
      rw [if_pos hmem, if_pos (by
        simp only [dkeys, List.map_cons, List.mem_cons]
        exact Or.inr hmem)]
      simp [dlookup, if_neg hne]
    · rw [if_neg hmem, dlookup_dinsert]
      by_cases hk : k0 = k
      · subst hk
        rw [if_pos rfl, if_pos (by simp [dkeys])]
        simp [dlookup]
      · rw [if_neg hk, if_neg (by
          simp only [dkeys, List.map_cons, List.mem_cons]
          rintro (h | h)
          · exact hk h.symm
          · exact hmem h)]

theorem dlookup_mem_ite {α : Type} (d : Dict α) (k : String) :
    (if k ∈ dkeys d then dlookup d k else none) = dlookup d k := by
  by_cases h : k ∈ dkeys d
  · simp [h]
  · simp [h, (dlookup_eq_none_iff d k).mpr h]

theorem mem_dkeys_flattenRec {α : Type} (x : Recommendation α) (c : String) :
    c ∈ dkeys (flattenRec x) ↔ c ∈ recKeys x := by
  rw [flattenRec, recKeys, mem_dkeys_dinsertAll, mem_dkeys_dinsertAll, mem_dkeys_dinsertAll]
  simp only [dkeys, List.map_nil, List.not_mem_nil, false_or, List.mem_append, or_assoc]

theorem mem_addRowKeys {α : Type} (row : Dict α) (cols : List String) (c : String) :
    c ∈ addRowKeys cols row ↔ c ∈ cols ∨ c ∈ dkeys row := by
  induction row generalizing cols with
  | nil => simp [addRowKeys, dkeys]
  | cons kv rest ih =>
    simp only [addRowKeys, List.foldl_cons] at ih ⊢
    rw [ih]
    simp only [dkeys, List.map_cons, List.mem_cons]
    by_cases h : kv.1 ∈ cols
    · rw [if_pos h]
      constructor
      · rintro (hc | hc)
        · exact Or.inl hc
        · exact Or.inr (Or.inr hc)
      · rintro (hc | rfl | hc)
        · exact Or.inl hc
        · exact Or.inl h
        · exact Or.inr hc
    · rw [if_neg h]
      simp only [List.mem_append, List.mem_singleton]
      tauto

theorem mem_foldl_addRowKeys {α : Type} (data : List (Dict α)) (cols : List String) (c : String) :
    c ∈ List.foldl addRowKeys cols data ↔ c ∈ cols ∨ ∃ row ∈ data, c ∈ dkeys row := by
  induction data generalizing cols with
  | nil => simp
  | cons row rest ih =>
    simp only [List.foldl_cons]
    rw [ih, mem_addRowKeys]
    simp only [List.mem_cons]
    constructor
    · rintro ((h | h) | ⟨r, hr, hc⟩)
      · tauto
      · exact Or.inr ⟨row, Or.inl rfl, h⟩
      · exact Or.inr ⟨r, Or.inr hr, hc⟩
    · rintro (h | ⟨r, hr | hr, hc⟩)
      · tauto
      · subst hr
        tauto
      · exact Or.inr ⟨r, hr, hc⟩

theorem mem_dfColumns {α : Type} (data : List (Dict α)) (c : String) :
    c ∈ dfColumns data ↔ ∃ row ∈ data, c ∈ dkeys row := by
  rw [dfColumns, mem_foldl_addRowKeys]
  simp

/-- The value `aggregateResults sampleRecs` evaluates to. -/
def sampleAggregated : DataFrame String :=
  ⟨["EndpointName", "InstanceType", "InitialInstanceCount", "EnvironmentParameters",
    "CostPerHour", "CostPerInference", "MaxInvocations", "ModelLatency"],
   [[("EndpointName", "sm-epc-1"), ("InstanceType", "ml.c5.xlarge"),
     ("InitialInstanceCount", "1"), ("EnvironmentParameters", "OMP_NUM_THREADS=2"),
     ("CostPerHour", "0.204"), ("CostPerInference", "0.0000052"),
     ("MaxInvocations", "300"), ("ModelLatency", "178")]]⟩

/-- Claim C1: for every non-empty recommendation list whose records have
pairwise disjoint sub-record keys (each record's endpoint configuration
carrying the service's `VariantName` field that the cell drops as
redundant), the aggregation cell produces a table with exactly one row per
input record whose column set is the union of all keys across the three
sub-records with `VariantName` removed. -/
theorem claim_C1 (α : Type) (recs : List (Recommendation α))
    (hne : recs ≠ [])
    (hvar : ∀ x ∈ recs, "VariantName" ∈ dkeys x.EndpointConfiguration)
    (_hdisj : ∀ x ∈ recs, pairwiseDisjointSubrecords x) :
    ∃ df : DataFrame α, aggregateResults recs = Except.ok df ∧
      df.rows.length = recs.length ∧
      (∀ c : String, c ∈ df.columns ↔ c ≠ "VariantName" ∧ ∃ x ∈ recs, c ∈ recKeys x) := by
  have hmem : "VariantName" ∈ (buildDataFrame (recs.map flattenRec)).columns := by
    match recs, hne with
    | x0 :: rest, _ =>
      show "VariantName" ∈ dfColumns ((x0 :: rest).map flattenRec)
      rw [mem_dfColumns]
      refine ⟨flattenRec x0, List.mem_map_of_mem _ (List.mem_cons_self _ _), ?_⟩
      rw [mem_dkeys_flattenRec, recKeys]
      exact List.mem_append_left _ (List.mem_append_left _ (hvar x0 (List.mem_cons_self _ _)))
  simp only [aggregateResults, dropColumn, if_pos hmem]
  refine ⟨_, rfl, ?_, ?_⟩
  · simp [buildDataFrame]
  · intro c
    rw [List.mem_filter, bne_iff_ne]
    show c ∈ dfColumns (recs.map flattenRec) ∧ _ ↔ _
    rw [mem_dfColumns]
    constructor
    · rintro ⟨⟨row, hrow, hc⟩, hne2⟩
      obtain ⟨x, hx, rfl⟩ := List.mem_map.mp hrow
      exact ⟨hne2, x, hx, (mem_dkeys_flattenRec x c).mp hc⟩
    · rintro ⟨hne2, x, hx, hc⟩
      exact ⟨⟨flattenRec x, List.mem_map_of_mem _ hx, (mem_dkeys_flattenRec x c).mpr hc⟩, hne2⟩

/-- Witness for claim C1 at a concrete one-record list. -/
theorem claim_C1_witness :
    ∃ df : DataFrame String, aggregateResults sampleRecs = Except.ok df ∧
      df.rows.length = sampleRecs.length ∧
      (∀ c : String, c ∈ df.columns ↔ c ≠ "VariantName" ∧ ∃ x ∈ sampleRecs, c ∈ recKeys x) :=
  claim_C1 String sampleRecs (by decide) (by decide) (by decide)

/-- Claim C2 is violated by the code: on the empty recommendation list
(`pd.DataFrame([])` has no columns) the `df.drop("VariantName", ...)` call
raises a `KeyError` instead of returning an empty table. -/
theorem claim_C2_empty_list_raises :
    aggregateResults ([] : List (Recommendation String)) =
      Except.error "KeyError: VariantName" := rfl

/-- Claim C8: the aggregation applies no sorting and no filtering of rows:
the pre-drop table's rows are exactly the flattened records in input order,
and whenever the drop succeeds row `i` of the final table is flattened
record `i` with only its `VariantName` entry removed, so the output
preserves the input ordering and length. -/
theorem claim_C8 (α : Type) (recs : List (Recommendation α)) (df : DataFrame α)
    (h : aggregateResults recs = Except.ok df) :
    (buildDataFrame (recs.map flattenRec)).rows = recs.map flattenRec ∧
    df.rows = recs.map (fun x => (flattenRec x).filter (fun kv => kv.1 != "VariantName")) ∧
    df.rows.length = recs.length := by
  have h2 : df.rows =
      recs.map (fun x => (flattenRec x).filter (fun kv => kv.1 != "VariantName")) := by
    simp only [aggregateResults, dropColumn] at h
    split at h
    · injection h with h
      subst h
      simp [buildDataFrame, List.map_map, Function.comp_def]
    · cases h
  exact ⟨rfl, h2, by rw [h2, List.length_map]⟩

/-- Witness for claim C8 at a concrete one-record list. -/
theorem claim_C8_witness :
    (buildDataFrame (sampleRecs.map flattenRec)).rows = sampleRecs.map flattenRec ∧
    sampleAggregated.rows =
      sampleRecs.map (fun x => (flattenRec x).filter (fun kv => kv.1 != "VariantName")) ∧
    sampleAggregated.rows.length = sampleRecs.length :=
  claim_C8 String sampleRecs sampleAggregated rfl

/-- Claim C10: when sub-record keys overlap, the dict merge
`{**EndpointConfiguration, **ModelConfiguration, **Metrics}` is
right-biased: a key found in `Metrics` takes its value from there,
otherwise from `ModelConfiguration`, otherwise from
`EndpointConfiguration`.  The `Nodup` hypotheses state that each
sub-record is a genuine Python dict (pairwise distinct keys). -/
theorem claim_C10 (α : Type) (x : Recommendation α) (k : String)
    (hec : (dkeys x.EndpointConfiguration).Nodup)
    (hmc : (dkeys x.ModelConfiguration).Nodup)
    (hmet : (dkeys x.Metrics).Nodup) :
    dlookup (flattenRec x) k =
      if k ∈ dkeys x.Metrics then dlookup x.Metrics k
      else if k ∈ dkeys x.ModelConfiguration then dlookup x.ModelConfiguration k
      else dlookup x.EndpointConfiguration k := by
  rw [flattenRec, dlookup_dinsertAll _ _ _ hmet]
  by_cases h1 : k ∈ dkeys x.Metrics
  · rw [if_pos h1, if_pos h1]
  · rw [if_neg h1, if_neg h1, dlookup_dinsertAll _ _ _ hmc]
    by_cases h2 : k ∈ dkeys x.ModelConfiguration
    · rw [if_pos h2, if_pos h2]
    · rw [if_neg h2, if_neg h2, dlookup_dinsertAll _ _ _ hec]
      rw [show dlookup ([] : Dict α) k = none from rfl]
      exact dlookup_mem_ite _ _

/-- Witness for claim C10 at a record whose endpoint-configuration and
model-configuration sub-records share the key `SharedKey`. -/
theorem claim_C10_witness :
    dlookup (flattenRec overlapRec) "SharedKey" =
      if "SharedKey" ∈ dkeys overlapRec.Metrics then dlookup overlapRec.Metrics "SharedKey"
      else if "SharedKey" ∈ dkeys overlapRec.ModelConfiguration then
        dlookup overlapRec.ModelConfiguration "SharedKey"
      else dlookup overlapRec.EndpointConfiguration "SharedKey" :=
  claim_C10 String overlapRec "SharedKey" (by decide) (by decide) (by decide)

/-- Claim C3 as frozen is refuted by the code at a concrete failed job: the
status is `FAILED` and the failure reason is present and non-empty, yet the
flow still executes the result-aggregation cell, because the status-check
cell only prints and nothing stops the run. -/
theorem claim_C3_counterexample :
    failedJob.Status = "FAILED" ∧
    (∃ r, failedJob.FailureReason = some r ∧ r ≠ "") ∧
    hasAggregationStep (notebookTail failedJob) = true := by
  refine ⟨rfl, ⟨"ClientError: unable to provision the requested instance type", rfl, by decide⟩, ?_⟩
  rfl

/-- Claim C3 (amended): a failed job record exposes a non-empty failure
reason — a guarantee of the remote service, modelled from the spec as
`FailedJobHasReason` — and the flow prints it; however, the flow still
proceeds to the result-aggregation cell, since the notebook contains no
check that stops a run after a failed status. -/
theorem claim_C3_amended (job : JobDescription)
    (hwf : FailedJobHasReason job) (hst : job.Status = "FAILED") :
    ∃ r, r ≠ "" ∧
      CellEvent.printed ("Failed Reason: " ++ r) ∈ notebookTail job ∧
      hasAggregationStep (notebookTail job) = true := by
  obtain ⟨r, hr, hne⟩ := hwf hst
  refine ⟨r, hne, ?_, ?_⟩
  · simp [notebookTail, statusCheckCell, hst, hr]
  · simp [notebookTail, statusCheckCell, hst, hr, hasAggregationStep]

/-- Witness for the amended claim C3 at a concrete failed job. -/
theorem claim_C3_amended_witness :
    ∃ r, r ≠ "" ∧
      CellEvent.printed ("Failed Reason: " ++ r) ∈ notebookTail failedJob ∧
      hasAggregationStep (notebookTail failedJob) = true :=
  claim_C3_amended failedJob
    (fun _ => ⟨"ClientError: unable to provision the requested instance type", rfl, by decide⟩)
    rfl

theorem pollLoopAux_sound (describe : Nat → JobDescription) :
    ∀ (fuel i : Nat) (r : PollResult), pollLoopAux describe fuel i = some r →
      i ≤ r.finalIndex ∧ r.finalIndex < i + fuel ∧
      isTerminalStatus (describe r.finalIndex).Status = true ∧
      (∀ j, i ≤ j → j < r.finalIndex → isTerminalStatus (describe j).Status = false) ∧
      r.finalJob = describe r.finalIndex ∧
      r.sleeps = List.replicate (r.finalIndex - i) 300 := by
  intro fuel
  induction fuel with
  | zero =>
    intro i r h
    simp [pollLoopAux] at h
  | succ fuel ih =>
    intro i r h
    simp only [pollLoopAux] at h
    cases hterm : isTerminalStatus (describe i).Status with
    | true =>
      rw [if_pos hterm] at h
      injection h with h
      subst h
      dsimp only
      refine ⟨Nat.le_refl i, by omega, hterm, ?_, rfl, by simp⟩
      intro j h1 h2
      exact absurd h2 (by omega)
    | false =>
      rw [if_neg (by simp [hterm])] at h
      cases hrec : pollLoopAux describe fuel (i + 1) with
      | none =>
        rw [hrec] at h
        simp at h
      | some r0 =>
        obtain ⟨fI, fj, sl⟩ := r0
        rw [hrec] at h
        simp only [] at h
        injection h with h
        subst h
        obtain ⟨h1, h2, h3, h4, h5, h6⟩ := ih (i + 1) ⟨fI, fj, sl⟩ hrec
        dsimp only at h1 h2 h3 h4 h5 h6 ⊢
        refine ⟨by omega, by omega, h3, ?_, h5, ?_⟩
        · intro j hj1 hj2
          by_cases hji : j = i
          · subst hji
            exact hterm
          · exact h4 j (by omega) hj2
        · rw [h6, show fI - i = (fI - (i + 1)) + 1 from by omega, List.replicate_succ]

theorem pollLoopAux_complete (describe : Nat → JobDescription) :
    ∀ (fuel i n : Nat), i ≤ n → n < i + fuel →
      isTerminalStatus (describe n).Status = true →
      (∀ j, i ≤ j → j < n → isTerminalStatus (describe j).Status = false) →
      pollLoopAux describe fuel i = some ⟨n, describe n, List.replicate (n - i) 300⟩ := by
  intro fuel
  induction fuel with
  | zero =>
    intro i n h1 h2 h3 h4
    exact absurd h2 (by omega)
  | succ fuel ih =>
    intro i n h1 h2 h3 h4
    simp only [pollLoopAux]
    by_cases hni : n = i
    · subst hni
      rw [if_pos h3]
      simp
    · have hfalse : isTerminalStatus (describe i).Status = false :=
        h4 i (Nat.le_refl i) (by omega)
      rw [if_neg (by simp [hfalse])]
      rw [ih (i + 1) n (by omega) (by omega) h3 (fun j hj1 hj2 => h4 j (by omega) hj2)]
      dsimp only
      rw [show n - i = (n - (i + 1)) + 1 from by omega, List.replicate_succ]

/-- Claim C4: the poll loop terminates exactly when a freshly queried status
first equals one of COMPLETED, STOPPED or FAILED: it returns a result iff
that result's index is the first index whose queried status is terminal,
the returned description is the one freshly queried at that index (every
earlier iteration queried its own fresh description — under caching the
decision could not depend on every index separately), and one fixed sleep
was performed per non-terminal observation. -/
theorem claim_C4 (describe : Nat → JobDescription) (fuel : Nat) (r : PollResult) :
    pollLoop describe fuel = some r ↔
      (r.finalIndex < fuel ∧
       isTerminalStatus (describe r.finalIndex).Status = true ∧
       (∀ j, j < r.finalIndex → isTerminalStatus (describe j).Status = false) ∧
       r.finalJob = describe r.finalIndex ∧
       r.sleeps = List.replicate r.finalIndex 300) := by
  constructor
  · intro h
    obtain ⟨h1, h2, h3, h4, h5, h6⟩ := pollLoopAux_sound describe fuel 0 r h
    exact ⟨by omega, h3, fun j hj => h4 j (Nat.zero_le j) hj, h5, by simpa using h6⟩
  · rintro ⟨h1, h2, h3, h4, h5⟩
    obtain ⟨fI, fj, sl⟩ := r
    dsimp only at h1 h2 h3 h4 h5 ⊢
    subst h4
    subst h5
    have h := pollLoopAux_complete describe fuel 0 fI (Nat.zero_le fI) (by omega) h2
      (fun j hj1 hj2 => h3 j hj2)
    simpa [pollLoop] using h

/-- Witness for claim C4: a job in progress for two queries and completed on
the third makes the loop stop at index 2 with two 300-unit sleeps. -/
theorem claim_C4_witness :
    pollLoop sampleDescribe 5 = some ⟨2, completedJob, [300, 300]⟩ :=
  (claim_C4 sampleDescribe 5 ⟨2, completedJob, [300, 300]⟩).mpr
    ⟨by decide, by decide, by decide, by decide, by decide⟩

/-- Claim C5: the poll loop sleeps a fixed 300 time-units between
consecutive queries — one sleep per non-terminal observation, every sleep
equal to 300, so no backoff — and it has no client-side timeout: when the
queried status never becomes terminal the loop returns `none` for every
fuel, i.e. it never terminates and blocks indefinitely. -/
theorem claim_C5 (describe : Nat → JobDescription) :
    ((∀ n, isTerminalStatus (describe n).Status = false) →
      ∀ fuel, pollLoop describe fuel = none) ∧
    (∀ fuel r, pollLoop describe fuel = some r →
      r.sleeps = List.replicate r.finalIndex 300 ∧ ∀ s ∈ r.sleeps, s = 300) := by
  constructor
  · intro hnever fuel
    cases h : pollLoop describe fuel with
    | none => rfl
    | some r =>
      obtain ⟨_, _, h3, _, _, _⟩ := pollLoopAux_sound describe fuel 0 r h
      rw [hnever r.finalIndex] at h3
      cases h3
  · intro fuel r h
    obtain ⟨_, _, _, _, _, h6⟩ := pollLoopAux_sound describe fuel 0 r h
    have hs : r.sleeps = List.replicate r.finalIndex 300 := by simpa using h6
    refine ⟨hs, fun s hmem => ?_⟩
    rw [hs] at hmem
    exact List.eq_of_mem_replicate hmem

/-- Witness for claim C5: a never-terminal job blocks for every fuel, and a
terminating run's sleeps are all 300. -/
theorem claim_C5_witness :
    pollLoop constInProgress 7 = none ∧
    ((⟨2, completedJob, [300, 300]⟩ : PollResult).sleeps =
        List.replicate (⟨2, completedJob, [300, 300]⟩ : PollResult).finalIndex 300 ∧
      ∀ s ∈ (⟨2, completedJob, [300, 300]⟩ : PollResult).sleeps, s = 300) :=
  ⟨(claim_C5 constInProgress).1 (fun _ => rfl) 7,
   (claim_C5 sampleDescribe).2 5 ⟨2, completedJob, [300, 300]⟩ (by decide)⟩

theorem matchHere_append (p rest : List Char) : matchHere p (p ++ rest) = some rest := by
  induction p with
  | nil => rfl
  | cons c cs ih => simp [matchHere, ih]

theorem searchPat_append_pat (pat : List Char) (t : Char) (ts : List Char)
    (hp : pat ≠ []) (ht : isNumChar t = true) :
    searchPat pat (pat ++ t :: ts) = true := by
  match pat, hp with
  | c :: cs, _ =>
    rw [List.cons_append, searchPat]
    rw [show matchHere (c :: cs) (c :: (cs ++ t :: ts)) = some (t :: ts) from
      matchHere_append (c :: cs) (t :: ts)]
    simp [ht]

theorem capturePat_append_pat (pat : List Char) (t : Char) (ts : List Char)
    (hp : pat ≠ []) (ht : isNumChar t = true) :
    capturePat pat (pat ++ t :: ts) = some (List.takeWhile isNumChar (t :: ts)) := by
  match pat, hp with
  | c :: cs, _ =>
    rw [List.cons_append, capturePat]
    rw [show matchHere (c :: cs) (c :: (cs ++ t :: ts)) = some (t :: ts) from
      matchHere_append (c :: cs) (t :: ts)]
    simp [ht]

/-- Claim C6: the log line emitted by the training script for the 50th
percentile has the form `AE-at-50th-percentile: <value>`, the declared
objective-metric regex `AE-at-50th-percentile: ([0-9.]+).*$` matches it and
captures the leading `[0-9.]` run of the value, and the metric it feeds is
the one named `median-AE`.  The hypothesis states that the rendered value
starts with a digit or a dot, as the decimal rendering of the non-negative
absolute-error percentile does. -/
theorem claim_C6 (v : String) (t : Char) (ts : List Char)
    (hv : v.data = t :: ts) (ht : isNumChar t = true) :
    percentileLogLine 50 v = "AE-at-50th-percentile: " ++ v ∧
    medianAERegexAccepts (percentileLogLine 50 v) = true ∧
    medianAEExtract (percentileLogLine 50 v) = some (v.data.takeWhile isNumChar) ∧
    medianAEMetricDef.Name = "median-AE" := by
  have hform : percentileLogLine 50 v = "AE-at-50th-percentile: " ++ v := by
    rw [percentileLogLine,
      show ("AE-at-" ++ pyNatString 50 ++ "th-percentile: ") = "AE-at-50th-percentile: "
        from by decide]
  have hdata : (percentileLogLine 50 v).data = medianAELit ++ (t :: ts) := by
    rw [hform, String.data_append, hv]
    rfl
  refine ⟨hform, ?_, ?_, rfl⟩
  · rw [medianAERegexAccepts, hdata]
    exact searchPat_append_pat medianAELit t ts (by decide) ht
  · rw [medianAEExtract, hdata, hv]
    exact capturePat_append_pat medianAELit t ts (by decide) ht

/-- Witness for claim C6 at the rendered value `0.5`. -/
theorem claim_C6_witness :
    percentileLogLine 50 "0.5" = "AE-at-50th-percentile: " ++ "0.5" ∧
    medianAERegexAccepts (percentileLogLine 50 "0.5") = true ∧
    medianAEExtract (percentileLogLine 50 "0.5") =
      some (String.data "0.5" |>.takeWhile isNumChar) ∧
    medianAEMetricDef.Name = "median-AE" :=
  claim_C6 "0.5" '0' ['.', '5'] rfl rfl

/-- Claim C9: `model_fn(model_dir)` after the training script persisted the
model with `joblib.dump` to `os.path.join(model_dir, "model.joblib")` is a
round trip: it loads exactly the persisted model value. -/
theorem claim_C9 (α : Type) (store : Dict α) (model_dir : String) (m : α) :
    model_fn (script_persist_model store model_dir m) model_dir = some m := by
  rw [model_fn, script_persist_model, joblib_load, joblib_dump, dlookup_dinsert]
  simp

theorem decValChar_decDigitChar (d : Nat) (h : d < 10) :
    decValChar (decDigitChar d) = d := by
  interval_cases d <;> decide

theorem pyNatStrGo_append (fuel : Nat) :
    ∀ n acc, n < fuel → pyNatStrGo fuel n acc = pyNatStrGo fuel n [] ++ acc := by
  induction fuel with
  | zero =>
    intro n acc h
    exact absurd h (by omega)
  | succ fuel ih =>
    intro n acc h
    by_cases h10 : n < 10
    · simp [pyNatStrGo, h10]
    · simp only [pyNatStrGo, if_neg h10]
      have hlt : n / 10 < fuel := by omega
      rw [ih (n / 10) (decDigitChar (n % 10) :: acc) hlt,
        ih (n / 10) [decDigitChar (n % 10)] hlt]
      simp

theorem decVal_append_singleton (l : List Char) (c : Char) :
    decVal (l ++ [c]) = 10 * decVal l + decValChar c := by
  simp [decVal, List.foldl_append]

theorem decVal_pyNatStrGo (fuel : Nat) :
    ∀ n, n < fuel → decVal (pyNatStrGo fuel n []) = n := by
  induction fuel with
  | zero =>
    intro n h
    exact absurd h (by omega)
  | succ fuel ih =>
    intro n h
    by_cases h10 : n < 10
    · simp only [pyNatStrGo, if_pos h10]
      simp [decVal, decValChar_decDigitChar n h10]
    · simp only [pyNatStrGo, if_neg h10]
      have hlt : n / 10 < fuel := by omega
      rw [pyNatStrGo_append fuel (n / 10) [decDigitChar (n % 10)] hlt,
        decVal_append_singleton, ih (n / 10) hlt,
        decValChar_decDigitChar (n % 10) (by omega)]
      omega

theorem pyNatString_injective (a b : Nat) (h : pyNatString a = pyNatString b) : a = b := by
  have hd : pyNatStrGo (a + 1) a [] = pyNatStrGo (b + 1) b [] := congrArg String.data h
  have ha := decVal_pyNatStrGo (a + 1) a (Nat.lt_succ_self a)
  have hb := decVal_pyNatStrGo (b + 1) b (Nat.lt_succ_self b)
  rw [← ha, ← hb, hd]

theorem string_append_right_injective (p a b : String) (h : p ++ a = p ++ b) : a = b := by
  have hd := congrArg String.data h
  rw [String.data_append, String.data_append] at hd
  exact String.ext (List.append_cancel_left hd)

theorem append_ne_of_take_ne (a b c d : List Char) (n : Nat)
    (ha : n ≤ a.length) (hc : n ≤ c.length) (hne : a.take n ≠ c.take n) :
    a ++ b ≠ c ++ d := by
  intro h
  have htake := congrArg (List.take n) h
  rw [List.take_append_of_le_length ha, List.take_append_of_le_length hc] at htake
  exact hne htake

/-- Claim C7: job-name uniqueness is enforced only through the embedded
rounded timestamp: for each naming scheme, distinct rounded timestamps give
distinct names (the fixed prefix plus the injective decimal rendering), and
names from different schemes never collide because their fixed prefixes
differ.  Equal rounded timestamps within one scheme give equal names, so
this is all the enforcement there is. -/
theorem claim_C7 (t1 t2 : Nat) (s1 s2 : String) :
    (t1 ≠ t2 → default_job_name t1 ≠ default_job_name t2) ∧
    (t1 ≠ t2 → advanced_job_name t1 ≠ advanced_job_name t2) ∧
    (s1 ≠ s2 → training_job_name s1 ≠ training_job_name s2) ∧
    default_job_name t1 ≠ advanced_job_name t2 ∧
    default_job_name t1 ≠ training_job_name s1 ∧
    advanced_job_name t1 ≠ training_job_name s1 := by
  refine ⟨?_, ?_, ?_, ?_, ?_, ?_⟩
  · intro hne h
    exact hne (pyNatString_injective t1 t2
      (string_append_right_injective (model_name ++ "-instance-") _ _ h))
  · intro hne h
    exact hne (pyNatString_injective t1 t2
      (string_append_right_injective
        (model_name ++ "-" ++ replaceDotWithDash instance_type ++ "-load-test-") _ _ h))
  · intro hne h
    exact hne (string_append_right_injective "sklearn-boto3-" _ _ h)
  · intro h
    have hd := congrArg String.data h
    rw [show (default_job_name t1).data =
        (model_name ++ "-instance-").data ++ (pyNatString t1).data from
      String.data_append _ _] at hd
    rw [show (advanced_job_name t2).data =
        (model_name ++ "-" ++ replaceDotWithDash instance_type ++ "-load-test-").data ++
          (pyNatString t2).data from
      String.data_append _ _] at hd
    exact append_ne_of_take_ne _ _ _ _ 10 (by decide) (by decide) (by decide) hd
  · intro h
    have hd := congrArg String.data h
    rw [show (default_job_name t1).data =
        (model_name ++ "-instance-").data ++ (pyNatString t1).data from
      String.data_append _ _] at hd
    rw [show (training_job_name s1).data = "sklearn-boto3-".data ++ s1.data from
      String.data_append _ _] at hd
    exact append_ne_of_take_ne _ _ _ _ 1 (by decide) (by decide) (by decide) hd
  · intro h
    have hd := congrArg String.data h
    rw [show (advanced_job_name t1).data =
        (model_name ++ "-" ++ replaceDotWithDash instance_type ++ "-load-test-").data ++
          (pyNatString t1).data from
      String.data_append _ _] at hd
    rw [show (training_job_name s1).data = "sklearn-boto3-".data ++ s1.data from
      String.data_append _ _] at hd
    exact append_ne_of_take_ne _ _ _ _ 1 (by decide) (by decide) (by decide) hd

/-- Witness for claim C7 at two concrete rounded timestamps one second
apart and two concrete formatted training timestamps. -/
theorem claim_C7_witness :
    default_job_name 1638288100 ≠ default_job_name 1638288101 ∧
    advanced_job_name 1638288100 ≠ advanced_job_name 1638288101 ∧
    training_job_name "2021-11-30-16-41-40" ≠ training_job_name "2021-11-30-16-41-41" ∧
    default_job_name 1638288100 ≠ advanced_job_name 1638288101 ∧
    default_job_name 1638288100 ≠ training_job_name "2021-11-30-16-41-40" ∧
    advanced_job_name 1638288100 ≠ training_job_name "2021-11-30-16-41-40" :=
  ⟨(claim_C7 1638288100 1638288101 "2021-11-30-16-41-40" "2021-11-30-16-41-41").1 (by decide),
   (claim_C7 1638288100 1638288101 "2021-11-30-16-41-40" "2021-11-30-16-41-41").2.1 (by decide),
   (claim_C7 1638288100 1638288101 "2021-11-30-16-41-40" "2021-11-30-16-41-41").2.2.1 (by decide),
   (claim_C7 1638288100 1638288101 "2021-11-30-16-41-40" "2021-11-30-16-41-41").2.2.2.1,
   (claim_C7 1638288100 1638288101 "2021-11-30-16-41-40" "2021-11-30-16-41-41").2.2.2.2.1,
   (claim_C7 1638288100 1638288101 "2021-11-30-16-41-40" "2021-11-30-16-41-41").2.2.2.2.2⟩
